import Mathlib

/-!
# Verification of the radiography weekend-pay impact calculator

Shallow embedding, over exact rationals, of the computational core of the
repository: the UK tax / National Insurance model (`src/tax_uk.py`), the
monthly pay-projection pipeline (`src/app.py`, `compute_monthly_takehome`
and its helpers), and the Monte-Carlo Sunday-shift allocation simulator
(`src/app.py`, `simulate_sundays_per_month_distribution`).  Python floats
are modelled as `ℚ` (all constants involved are decimal literals, exactly
representable); NumPy's weighted random draw is modelled as an oracle
`ℕ → ℕ` choosing a position in the list of currently eligible indices, so
theorems quantified over the oracle cover every possible random outcome.
-/

namespace RadiographyPay

/-- Embeds the `TaxResult` dataclass of `src/tax_uk.py`. -/
structure TaxResult where
  taxable_income : ℚ
  income_tax : ℚ
  employee_ni : ℚ
  personal_allowance_used : ℚ
deriving Repr, DecidableEq

/-- Embeds `personal_allowance` from `src/tax_uk.py`:
full allowance 12,570 up to 100,000, tapered by 0.5 per £1 above,
zero from 125,140 upward. -/
def personal_allowance (adjusted_net_income : ℚ) : ℚ :=
  let pa : ℚ := 12570
  if adjusted_net_income ≤ 100000 then pa
  else if adjusted_net_income ≥ 125140 then 0
  else max 0 (pa - (adjusted_net_income - 100000) / 2)

/-- Embeds `income_tax_ruk` from `src/tax_uk.py`.  The sequential
`tax += ...` / `remaining -= ...` statements become let-bindings;
the two `if remaining > 0` guards are kept as written. -/
def income_tax_ruk (annual_gross : ℚ) (pension_deduction : ℚ) : TaxResult :=
  let adjusted := max 0 (annual_gross - pension_deduction)
  let pa := personal_allowance adjusted
  let taxable := max 0 (adjusted - pa)
  let basic_band : ℚ := 37700
  let higher_limit : ℚ := 125140 - pa
  let b := min taxable basic_band
  let tax0 := (20 / 100 : ℚ) * b
  let remaining0 := taxable - b
  let h_band := if 0 < remaining0
    then max 0 (min remaining0 (max 0 (higher_limit - basic_band))) else 0
  let tax1 := if 0 < remaining0 then tax0 + (40 / 100 : ℚ) * h_band else tax0
  let remaining1 := remaining0 - h_band
  let tax2 := if 0 < remaining1 then tax1 + (45 / 100 : ℚ) * remaining1 else tax1
  ⟨taxable, tax2, 0, pa⟩

/-- Embeds `employee_ni_annual` from `src/tax_uk.py`:
8% between the primary threshold and the upper earnings limit,
2% above the upper earnings limit. -/
def employee_ni_annual (annual_gross : ℚ) : ℚ :=
  let pt : ℚ := 12570
  let uel : ℚ := 50270
  if annual_gross ≤ pt then 0
  else (8 / 100 : ℚ) * (min annual_gross uel - pt)
    + (2 / 100 : ℚ) * max 0 (annual_gross - uel)

/-- Embeds `tax_and_ni_ruk` from `src/tax_uk.py`: the income-tax result
with the `employee_ni` field overwritten by `employee_ni_annual` of the
(floored) gross; NI ignores the pension deduction. -/
def tax_and_ni_ruk (annual_gross : ℚ) (pension_deduction : ℚ) : TaxResult :=
  let tr := income_tax_ruk annual_gross pension_deduction
  ⟨tr.taxable_income, tr.income_tax,
    employee_ni_annual (max 0 annual_gross), tr.personal_allowance_used⟩

/-! ## Personal-allowance lemmas -/

/-- Closed form of the allowance: clamp of the linear taper. -/
lemma personal_allowance_closed (i : ℚ) :
    personal_allowance i = max 0 (min 12570 ((125140 - i) / 2)) := by
  unfold personal_allowance
  split_ifs with h1 h2
  · have : (12570 : ℚ) ≤ (125140 - i) / 2 := by linarith
    rw [min_eq_left this, max_eq_right (by linarith)]
  · have : (125140 - i) / 2 ≤ 0 := by linarith
    have hmin : min (12570 : ℚ) ((125140 - i) / 2) = (125140 - i) / 2 :=
      min_eq_right (by linarith)
    rw [hmin, max_eq_left this]
  · push_neg at h1 h2
    have : min (12570 : ℚ) ((125140 - i) / 2) = (125140 - i) / 2 :=
      min_eq_right (by linarith)
    rw [this]
    show max (0 : ℚ) (12570 - (i - 100000) / 2) = max (0 : ℚ) ((125140 - i) / 2)
    have harg : (12570 : ℚ) - (i - 100000) / 2 = (125140 - i) / 2 := by ring
    rw [harg]

lemma personal_allowance_nonneg (i : ℚ) : 0 ≤ personal_allowance i := by
  rw [personal_allowance_closed]; exact le_max_left 0 _

lemma personal_allowance_le (i : ℚ) : personal_allowance i ≤ 12570 := by
  rw [personal_allowance_closed]
  exact max_le (by norm_num) (min_le_left _ _)

lemma personal_allowance_antitone {i1 i2 : ℚ} (h : i1 ≤ i2) :
    personal_allowance i2 ≤ personal_allowance i1 := by
  rw [personal_allowance_closed, personal_allowance_closed]
  exact max_le_max le_rfl (min_le_min le_rfl (by linarith))

/-! ## Claim C2 -/

/-- C2: `personal_allowance` returns 12,570 for adjusted income ≤ 100,000,
0 for income ≥ 125,140, the clamped linear taper `12570 - (i - 100000)/2`
strictly in between; it is antitone and its value always lies in
[0, 12,570]. -/
theorem C2_personal_allowance_taper :
    (∀ i : ℚ, i ≤ 100000 → personal_allowance i = 12570) ∧
    (∀ i : ℚ, 125140 ≤ i → personal_allowance i = 0) ∧
    (∀ i : ℚ, 100000 < i → i < 125140 →
      personal_allowance i = max 0 (12570 - (i - 100000) / 2)) ∧
    (∀ i1 i2 : ℚ, i1 < i2 → personal_allowance i2 ≤ personal_allowance i1) ∧
    (∀ i : ℚ, 0 ≤ personal_allowance i ∧ personal_allowance i ≤ 12570) := by
  refine ⟨?_, ?_, ?_, ?_, ?_⟩
  · intro i hi
    unfold personal_allowance
    rw [if_pos hi]
  · intro i hi
    unfold personal_allowance
    rw [if_neg (by simp only [not_le]; linarith), if_pos hi]
  · intro i h1 h2
    unfold personal_allowance
    rw [if_neg (not_le.mpr h1), if_neg (not_le.mpr h2)]
  · intro i1 i2 h
    exact personal_allowance_antitone h.le
  · intro i
    exact ⟨personal_allowance_nonneg i, personal_allowance_le i⟩

/-- Witness for C2 at concrete incomes 50,000 / 130,000 / 110,000 / 120,000. -/
theorem C2_personal_allowance_taper_witness :
    personal_allowance 50000 = 12570 ∧ personal_allowance 130000 = 0 ∧
    personal_allowance 110000 = max 0 (12570 - (110000 - 100000) / 2) ∧
    personal_allowance 120000 ≤ personal_allowance 110000 :=
  ⟨C2_personal_allowance_taper.1 50000 (by norm_num),
   C2_personal_allowance_taper.2.1 130000 (by norm_num),
   C2_personal_allowance_taper.2.2.1 110000 (by norm_num) (by norm_num),
   C2_personal_allowance_taper.2.2.2.1 110000 120000 (by norm_num)⟩

/-! ## Claim C1 -/

/-- The income-tax computation as the specification words it: a closed
three-band waterfall over taxable income `t` and allowance `a`:
20% of `min t 37700`, 40% of the next slice bounded by
`max 0 ((125140 - a) - 37700)`, and 45% of whatever taxable income
remains above both bands. -/
def incomeTaxSpecFormula (annual_gross : ℚ) (pension_deduction : ℚ) : ℚ :=
  let adjusted := max 0 (annual_gross - pension_deduction)
  let a := personal_allowance adjusted
  let t := max 0 (adjusted - a)
  (20 / 100 : ℚ) * min t 37700
    + (40 / 100 : ℚ) * min (max (t - 37700) 0) (max ((125140 - a) - 37700) 0)
    + (45 / 100 : ℚ) * max (t - 37700 - max ((125140 - a) - 37700) 0) 0

set_option maxHeartbeats 2000000 in
/-- The sequential band computation of `income_tax_ruk` equals the closed
waterfall formula of the specification, for all inputs. -/
lemma income_tax_eq_formula (g d : ℚ) :
    (income_tax_ruk g d).income_tax = incomeTaxSpecFormula g d := by
  unfold income_tax_ruk incomeTaxSpecFormula
  dsimp only
  set a := personal_allowance (max 0 (g - d)) with ha
  set t := max 0 (max 0 (g - d) - a) with htdef
  have ht : 0 ≤ t := le_max_left 0 _
  set W := max (0 : ℚ) (125140 - a - 37700) with hWdef
  have hW0 : 0 ≤ W := le_max_left 0 _
  have hWeq : max ((125140 - a) - 37700) 0 = W := by rw [hWdef, max_comm]
  rw [hWeq]
  simp only [min_def, max_def]
  split_ifs <;> linarith

/-- C1: `income_tax_ruk` implements exactly the three-band waterfall the
specification describes (band widths `37700` and
`max 0 ((125140 - allowance) - 37700)`, rates 20%/40%/45%), and at
annual gross 50,270 with no pension deduction the income tax is
exactly 7,540. -/
theorem C1_income_tax_waterfall :
    (∀ g d : ℚ, (income_tax_ruk g d).income_tax = incomeTaxSpecFormula g d) ∧
    (income_tax_ruk 50270 0).income_tax = 7540 :=
  ⟨income_tax_eq_formula, by norm_num [income_tax_ruk, personal_allowance]⟩

/-! ## Claim C3 -/

lemma personal_allowance_of_le {i : ℚ} (hi : i ≤ 100000) :
    personal_allowance i = 12570 := by
  unfold personal_allowance
  rw [if_pos hi]

lemma max_zero_sub_add (x a : ℚ) : max 0 (x - a) + a = max a x := by
  rcases le_total (x - a) 0 with hx | hx
  · rw [max_eq_left hx, max_eq_left (by linarith : x ≤ a)]
    ring
  · rw [max_eq_right hx, max_eq_right (by linarith : a ≤ x)]
    ring

/-- The map `max (allowance x) x` is monotone: wherever the allowance strictly
decreases the income is already far above the whole allowance range. -/
lemma personal_allowance_max_mono {x1 x2 : ℚ} (h : x1 ≤ x2) :
    max (personal_allowance x1) x1 ≤ max (personal_allowance x2) x2 := by
  apply max_le
  · rcases le_total x2 100000 with h2 | h2
    · calc personal_allowance x1 ≤ 12570 := personal_allowance_le x1
      _ = personal_allowance x2 := (personal_allowance_of_le h2).symm
      _ ≤ max (personal_allowance x2) x2 := le_max_left _ _
    · have h1 : personal_allowance x1 ≤ x2 := by
        have := personal_allowance_le x1
        linarith
      exact le_trans h1 (le_max_right _ _)
  · exact le_trans h (le_max_right _ _)

/-- The waterfall formula as a function of the adjusted net income alone. -/
def taxOnAdjusted (x : ℚ) : ℚ :=
  let a := personal_allowance x
  let t := max 0 (x - a)
  (20 / 100 : ℚ) * min t 37700
    + (40 / 100 : ℚ) * min (max (t - 37700) 0) (max ((125140 - a) - 37700) 0)
    + (45 / 100 : ℚ) * max (t - 37700 - max ((125140 - a) - 37700) 0) 0

lemma spec_formula_eq_onAdjusted (g d : ℚ) :
    incomeTaxSpecFormula g d = taxOnAdjusted (max 0 (g - d)) := rfl

/-- Each of the three waterfall bands is monotone in the adjusted income. -/
lemma taxOnAdjusted_mono {x1 x2 : ℚ} (h : x1 ≤ x2) :
    taxOnAdjusted x1 ≤ taxOnAdjusted x2 := by
  unfold taxOnAdjusted
  dsimp only
  have haa := personal_allowance_antitone h
  have ha1le := personal_allowance_le x1
  have ha2le := personal_allowance_le x2
  have hW1 : max ((125140 - personal_allowance x1) - 37700) 0
      = 87440 - personal_allowance x1 := by
    rw [max_eq_left (by linarith :
      (0 : ℚ) ≤ 125140 - personal_allowance x1 - 37700)]
    ring
  have hW2 : max ((125140 - personal_allowance x2) - 37700) 0
      = 87440 - personal_allowance x2 := by
    rw [max_eq_left (by linarith :
      (0 : ℚ) ≤ 125140 - personal_allowance x2 - 37700)]
    ring
  rw [hW1, hW2]
  have htm : max 0 (x1 - personal_allowance x1)
      ≤ max 0 (x2 - personal_allowance x2) :=
    max_le_max le_rfl (by linarith)
  have e1 : max 0 (x1 - personal_allowance x1) - 37700
        - (87440 - personal_allowance x1)
      = max (personal_allowance x1) x1 - 125140 := by
    rw [← max_zero_sub_add x1 (personal_allowance x1)]
    ring
  have e2 : max 0 (x2 - personal_allowance x2) - 37700
        - (87440 - personal_allowance x2)
      = max (personal_allowance x2) x2 - 125140 := by
    rw [← max_zero_sub_add x2 (personal_allowance x2)]
    ring
  rw [e1, e2]
  have t1 : (20 / 100 : ℚ) * min (max 0 (x1 - personal_allowance x1)) 37700
      ≤ (20 / 100 : ℚ) * min (max 0 (x2 - personal_allowance x2)) 37700 :=
    mul_le_mul_of_nonneg_left (min_le_min htm le_rfl) (by norm_num)
  have t2 : (40 / 100 : ℚ)
        * min (max (max 0 (x1 - personal_allowance x1) - 37700) 0)
            (87440 - personal_allowance x1)
      ≤ (40 / 100 : ℚ)
        * min (max (max 0 (x2 - personal_allowance x2) - 37700) 0)
            (87440 - personal_allowance x2) :=
    mul_le_mul_of_nonneg_left
      (min_le_min (max_le_max (by linarith) le_rfl) (by linarith)) (by norm_num)
  have t3 : (45 / 100 : ℚ) * max (max (personal_allowance x1) x1 - 125140) 0
      ≤ (45 / 100 : ℚ) * max (max (personal_allowance x2) x2 - 125140) 0 :=
    mul_le_mul_of_nonneg_left
      (max_le_max (by linarith [personal_allowance_max_mono h]) le_rfl)
      (by norm_num)
  linarith

/-- C3: for a fixed pension deduction, the income tax of `income_tax_ruk`
is non-decreasing in annual gross, across all bands including the
allowance-taper region. -/
theorem C3_income_tax_monotone (d g1 g2 : ℚ) (h : g1 ≤ g2) :
    (income_tax_ruk g1 d).income_tax ≤ (income_tax_ruk g2 d).income_tax := by
  rw [income_tax_eq_formula, income_tax_eq_formula,
    spec_formula_eq_onAdjusted, spec_formula_eq_onAdjusted]
  exact taxOnAdjusted_mono (max_le_max le_rfl (by linarith))

/-- Witness for C3 across the taper region: gross 90,000 vs 130,000. -/
theorem C3_income_tax_monotone_witness :
    (90000 : ℚ) ≤ 130000 ∧
    (income_tax_ruk 90000 0).income_tax ≤ (income_tax_ruk 130000 0).income_tax :=
  ⟨by norm_num, C3_income_tax_monotone 0 90000 130000 (by norm_num)⟩

/-! ## Claim C4 -/

/-- C4: `employee_ni_annual` is 0 at or below the primary threshold and
otherwise equals 8% of the capped band over the threshold plus 2% of the
excess over the upper earnings limit; its values at 12,570 / 50,270 /
60,270 are 0 / 3,016 / 3,216; and in `tax_and_ni_ruk` the NI component
is the same for every pension deduction. -/
theorem C4_employee_ni_thresholds :
    (∀ g : ℚ, g ≤ 12570 → employee_ni_annual g = 0) ∧
    (∀ g : ℚ, 12570 < g → employee_ni_annual g
      = (8 / 100 : ℚ) * (min g 50270 - 12570)
        + (2 / 100 : ℚ) * max 0 (g - 50270)) ∧
    employee_ni_annual 12570 = 0 ∧
    employee_ni_annual 50270 = 3016 ∧
    employee_ni_annual 60270 = 3216 ∧
    (∀ g d1 d2 : ℚ,
      (tax_and_ni_ruk g d1).employee_ni = (tax_and_ni_ruk g d2).employee_ni) := by
  refine ⟨?_, ?_, ?_, ?_, ?_, ?_⟩
  · intro g hg
    unfold employee_ni_annual
    rw [if_pos hg]
  · intro g hg
    unfold employee_ni_annual
    rw [if_neg (not_le.mpr hg)]
  · norm_num [employee_ni_annual]
  · norm_num [employee_ni_annual, min_def, max_def]
  · norm_num [employee_ni_annual, min_def, max_def]
  · intro g d1 d2
    rfl

/-- Witness for C4 at concrete grosses 10,000 and 60,270, and pension
deductions 0 vs 5,000. -/
theorem C4_employee_ni_thresholds_witness :
    employee_ni_annual 10000 = 0 ∧
    employee_ni_annual 60270
      = (8 / 100 : ℚ) * (min 60270 50270 - 12570)
        + (2 / 100 : ℚ) * max 0 (60270 - 50270) ∧
    (tax_and_ni_ruk 60000 0).employee_ni = (tax_and_ni_ruk 60000 5000).employee_ni :=
  ⟨C4_employee_ni_thresholds.1 10000 (by norm_num),
   C4_employee_ni_thresholds.2.1 60270 (by norm_num),
   C4_employee_ni_thresholds.2.2.2.2.2 60000 0 5000⟩

/-! ## Pay projection engine (src/app.py) -/

/-- Constant `CONTRACTED_HOURS_PER_WEEK = 37.5` from `src/app.py`. -/
def CONTRACTED_HOURS_PER_WEEK : ℚ := 75 / 2

/-- Constant `WEEKS_PER_YEAR = 52` from `src/app.py`. -/
def WEEKS_PER_YEAR : ℚ := 52

/-- Constant `SUNDAY_UPLIFT = 0.60` from `src/app.py`. -/
def SUNDAY_UPLIFT : ℚ := 60 / 100

/-- Constant `NEW_SUNDAY_HOURS = 12.0` from `src/app.py`. -/
def NEW_SUNDAY_HOURS : ℚ := 12

/-- Embeds `calc_base_annual` from `src/app.py`. -/
def calc_base_annual (hourly : ℚ) : ℚ :=
  hourly * CONTRACTED_HOURS_PER_WEEK * WEEKS_PER_YEAR

/-- Embeds `calc_current_bank_monthly` from `src/app.py`. -/
def calc_current_bank_monthly (bank_sundays_per_month bank_hours bank_rate : ℚ) : ℚ :=
  bank_sundays_per_month * bank_hours * bank_rate

/-- Embeds `calc_new_sundays_monthly` from `src/app.py`. -/
def calc_new_sundays_monthly (new_sundays_per_month base_hourly : ℚ) : ℚ :=
  new_sundays_per_month * NEW_SUNDAY_HOURS * base_hourly * (1 + SUNDAY_UPLIFT)

/-- Embeds `calc_annual_leave_uplift_monthly` from `src/app.py`. -/
def calc_annual_leave_uplift_monthly
    (new_sundays_per_month base_hourly annual_leave_weeks : ℚ) : ℚ :=
  let enhancement_per_sunday := NEW_SUNDAY_HOURS * base_hourly * SUNDAY_UPLIFT
  let sundays_per_year := new_sundays_per_month * 12
  let annual_enhancement_total := sundays_per_year * enhancement_per_sunday
  let weekly_avg_enh := annual_enhancement_total / 52
  let annual_leave_uplift := weekly_avg_enh * annual_leave_weeks
  annual_leave_uplift / 12

/-- The dictionary returned by `compute_monthly_takehome` in `src/app.py`,
one field per key, in the source's key order. -/
structure TakehomeResult where
  base_monthly : ℚ
  current_weekend_monthly : ℚ
  new_weekend_monthly : ℚ
  leave_uplift_monthly : ℚ
  current_gross_monthly : ℚ
  new_gross_monthly : ℚ
  current_pension_monthly : ℚ
  new_pension_monthly : ℚ
  current_takehome_monthly : ℚ
  new_takehome_monthly : ℚ
  current_tax_annual : ℚ
  new_tax_annual : ℚ
  current_ni_annual : ℚ
  new_ni_annual : ℚ
  current_gross_annual : ℚ
  new_gross_annual : ℚ
  current_pension_annual : ℚ
  new_pension_annual : ℚ
  current_takehome_annual : ℚ
  new_takehome_annual : ℚ
deriving Repr, DecidableEq

/-- Embeds `compute_monthly_takehome` from `src/app.py`. -/
def compute_monthly_takehome (base_hourly bank_sundays_per_month bank_hours
    bank_rate new_sundays_per_month pension_rate : ℚ)
    (include_leave_uplift : Bool) (annual_leave_weeks : ℚ) : TakehomeResult :=
  let base_annual := calc_base_annual base_hourly
  let base_monthly := base_annual / 12
  let current_weekend_monthly :=
    calc_current_bank_monthly bank_sundays_per_month bank_hours bank_rate
  let new_weekend_monthly :=
    calc_new_sundays_monthly new_sundays_per_month base_hourly
  let leave_uplift_monthly :=
    if include_leave_uplift then
      calc_annual_leave_uplift_monthly new_sundays_per_month base_hourly
        annual_leave_weeks
    else 0
  let current_gross_monthly := base_monthly + current_weekend_monthly
  let new_gross_monthly := base_monthly + new_weekend_monthly + leave_uplift_monthly
  let current_pension_monthly : ℚ := 0
  let new_pension_monthly :=
    pension_rate * (new_weekend_monthly + leave_uplift_monthly)
  let current_gross_annual := current_gross_monthly * 12
  let new_gross_annual := new_gross_monthly * 12
  let current_pension_annual := current_pension_monthly * 12
  let new_pension_annual := new_pension_monthly * 12
  let current_tax := tax_and_ni_ruk current_gross_annual current_pension_annual
  let new_tax := tax_and_ni_ruk new_gross_annual new_pension_annual
  let current_takehome_annual := current_gross_annual - current_pension_annual
    - current_tax.income_tax - current_tax.employee_ni
  let new_takehome_annual := new_gross_annual - new_pension_annual
    - new_tax.income_tax - new_tax.employee_ni
  ⟨base_monthly, current_weekend_monthly, new_weekend_monthly,
   leave_uplift_monthly, current_gross_monthly, new_gross_monthly,
   current_pension_monthly, new_pension_monthly,
   current_takehome_annual / 12, new_takehome_annual / 12,
   current_tax.income_tax, new_tax.income_tax,
   current_tax.employee_ni, new_tax.employee_ni,
   current_gross_annual, new_gross_annual,
   current_pension_annual, new_pension_annual,
   current_takehome_annual, new_takehome_annual⟩

/-! ## Claim C5 -/

/-- C5 counterexample: on the Band 6 Mid example the code's new weekend
pay is exactly 1,793.24352, which is more than 0.74 below the 1,793.99
the claim asserts it approximates, so it does not round to 1,793.99 at
any displayed precision. -/
theorem C5_new_weekend_example_counterexample :
    calc_new_sundays_monthly (433 / 100) (2157 / 100) = 179324352 / 100000 ∧
    calc_new_sundays_monthly (433 / 100) (2157 / 100) + 74 / 100
      < 179399 / 100 := by
  constructor <;>
    norm_num [calc_new_sundays_monthly, NEW_SUNDAY_HOURS, SUNDAY_UPLIFT]

/-- C5 (amended): the projection computes
`base_monthly = hourly * 37.5 * 52 / 12`,
`current_weekend_monthly = bank_sundays * bank_hours * bank_rate`, and
`new_weekend_monthly = new_sundays * 12 * base_hourly * 1.6`; on the
Band 6 Mid example (base 21.57, bank rate 44.70, 1 bank Sunday of 10.5
hours, 4.33 new Sundays) the current weekend pay is 469.35 and the new
weekend pay is exactly 1,793.24352 (≈ 1,793.24, not ≈ 1,793.99). -/
theorem C5_pay_projection_formulas :
    (∀ (bh bs bhrs br ns pr alw : ℚ) (il : Bool),
      (compute_monthly_takehome bh bs bhrs br ns pr il alw).base_monthly
        = bh * (75 / 2) * 52 / 12 ∧
      (compute_monthly_takehome bh bs bhrs br ns pr il alw).current_weekend_monthly
        = bs * bhrs * br ∧
      (compute_monthly_takehome bh bs bhrs br ns pr il alw).new_weekend_monthly
        = ns * 12 * bh * (1 + 60 / 100)) ∧
    (compute_monthly_takehome (2157 / 100) 1 (21 / 2) (447 / 10) (433 / 100)
      (107 / 1000) true (13 / 2)).current_weekend_monthly = 46935 / 100 ∧
    (compute_monthly_takehome (2157 / 100) 1 (21 / 2) (447 / 10) (433 / 100)
      (107 / 1000) true (13 / 2)).new_weekend_monthly = 179324352 / 100000 := by
  refine ⟨fun bh bs bhrs br ns pr alw il => ⟨?_, ?_, ?_⟩, ?_, ?_⟩ <;>
    norm_num [compute_monthly_takehome, calc_base_annual,
      calc_current_bank_monthly, calc_new_sundays_monthly,
      CONTRACTED_HOURS_PER_WEEK, WEEKS_PER_YEAR, NEW_SUNDAY_HOURS,
      SUNDAY_UPLIFT]

/-! ## Claim C6 -/

/-- C6: for non-negative pension rate, Sunday count, base rate and leave
weeks, the projection's current-scenario pension is exactly 0 and its
new-scenario pension is `pension_rate * (new_weekend + leave_uplift)`,
which is non-negative. -/
theorem C6_pension_fields (bh bs bhrs br ns pr alw : ℚ) (il : Bool)
    (hpr : 0 ≤ pr) (hns : 0 ≤ ns) (hbh : 0 ≤ bh) (halw : 0 ≤ alw) :
    (compute_monthly_takehome bh bs bhrs br ns pr il alw).current_pension_monthly
      = 0 ∧
    (compute_monthly_takehome bh bs bhrs br ns pr il alw).new_pension_monthly
      = pr * ((compute_monthly_takehome bh bs bhrs br ns pr il alw).new_weekend_monthly
          + (compute_monthly_takehome bh bs bhrs br ns pr il alw).leave_uplift_monthly) ∧
    0 ≤ (compute_monthly_takehome bh bs bhrs br ns pr il alw).new_pension_monthly := by
  refine ⟨rfl, rfl, ?_⟩
  have h1 : 0 ≤ calc_new_sundays_monthly ns bh := by
    unfold calc_new_sundays_monthly NEW_SUNDAY_HOURS SUNDAY_UPLIFT
    exact mul_nonneg (mul_nonneg (mul_nonneg hns (by norm_num)) hbh) (by norm_num)
  have h2 : 0 ≤ (if il then calc_annual_leave_uplift_monthly ns bh alw else 0) := by
    cases il
    · simp
    · simp only [if_pos]
      unfold calc_annual_leave_uplift_monthly NEW_SUNDAY_HOURS SUNDAY_UPLIFT
      dsimp only
      apply div_nonneg _ (by norm_num)
      apply mul_nonneg _ halw
      apply div_nonneg _ (by norm_num)
      exact mul_nonneg (mul_nonneg hns (by norm_num))
        (mul_nonneg (mul_nonneg (by norm_num) hbh) (by norm_num))
  show 0 ≤ pr * (calc_new_sundays_monthly ns bh
    + (if il then calc_annual_leave_uplift_monthly ns bh alw else 0))
  exact mul_nonneg hpr (add_nonneg h1 h2)

/-- Witness for C6 on the Band 6 Mid scenario with pension rate 0.107. -/
theorem C6_pension_fields_witness :
    (compute_monthly_takehome (2157 / 100) 1 (21 / 2) (447 / 10) (433 / 100)
      (107 / 1000) true (13 / 2)).current_pension_monthly = 0 ∧
    (compute_monthly_takehome (2157 / 100) 1 (21 / 2) (447 / 10) (433 / 100)
      (107 / 1000) true (13 / 2)).new_pension_monthly
      = (107 / 1000)
        * ((compute_monthly_takehome (2157 / 100) 1 (21 / 2) (447 / 10)
            (433 / 100) (107 / 1000) true (13 / 2)).new_weekend_monthly
          + (compute_monthly_takehome (2157 / 100) 1 (21 / 2) (447 / 10)
            (433 / 100) (107 / 1000) true (13 / 2)).leave_uplift_monthly) ∧
    0 ≤ (compute_monthly_takehome (2157 / 100) 1 (21 / 2) (447 / 10) (433 / 100)
      (107 / 1000) true (13 / 2)).new_pension_monthly :=
  C6_pension_fields (2157 / 100) 1 (21 / 2) (447 / 10) (433 / 100) (107 / 1000)
    (13 / 2) true (by norm_num) (by norm_num) (by norm_num) (by norm_num)

/-! ## Claim C10 -/

/-- C10: every current-scenario output of `compute_monthly_takehome` is
unchanged when only the new-scenario parameters (new Sundays per month,
leave-uplift flag, leave weeks) differ. -/
theorem C10_current_fields_frame (bh bs bhrs br pr ns1 ns2 alw1 alw2 : ℚ)
    (il1 il2 : Bool) :
    (compute_monthly_takehome bh bs bhrs br ns1 pr il1 alw1).base_monthly
      = (compute_monthly_takehome bh bs bhrs br ns2 pr il2 alw2).base_monthly ∧
    (compute_monthly_takehome bh bs bhrs br ns1 pr il1 alw1).current_weekend_monthly
      = (compute_monthly_takehome bh bs bhrs br ns2 pr il2 alw2).current_weekend_monthly ∧
    (compute_monthly_takehome bh bs bhrs br ns1 pr il1 alw1).current_gross_monthly
      = (compute_monthly_takehome bh bs bhrs br ns2 pr il2 alw2).current_gross_monthly ∧
    (compute_monthly_takehome bh bs bhrs br ns1 pr il1 alw1).current_pension_monthly
      = (compute_monthly_takehome bh bs bhrs br ns2 pr il2 alw2).current_pension_monthly ∧
    (compute_monthly_takehome bh bs bhrs br ns1 pr il1 alw1).current_tax_annual
      = (compute_monthly_takehome bh bs bhrs br ns2 pr il2 alw2).current_tax_annual ∧
    (compute_monthly_takehome bh bs bhrs br ns1 pr il1 alw1).current_ni_annual
      = (compute_monthly_takehome bh bs bhrs br ns2 pr il2 alw2).current_ni_annual ∧
    (compute_monthly_takehome bh bs bhrs br ns1 pr il1 alw1).current_takehome_monthly
      = (compute_monthly_takehome bh bs bhrs br ns2 pr il2 alw2).current_takehome_monthly :=
  ⟨rfl, rfl, rfl, rfl, rfl, rfl, rfl⟩

/-! ## Shift-allocation simulator (src/app.py) -/

/-- The `person_type` selector strings of `src/app.py` as a closed
enumeration. -/
inductive PersonType where
  | optOut
  | keen
  | average
deriving Repr, DecidableEq

/-- Quota `total_shifts = int(np.round(staff_required_per_sunday * (52 / 12)))`.
`staff_required * 52/12` has fractional part 0, 1/3 or 2/3, never 1/2, so
NumPy's round-half-to-even and `round` agree on it. -/
def total_shifts (staff_required_per_sunday : ℕ) : ℕ :=
  (round ((staff_required_per_sunday : ℚ) * (52 / 12))).toNat

/-- The eligible indices of one draw:
`(weights > 0) & (counts < cap_per_person)`, in index order, matching
`np.where(eligible)[0]`. -/
def eligibleIndices (n : ℕ) (w : ℕ → ℚ) (cap : ℕ) (counts : ℕ → ℕ) : List ℕ :=
  (List.range n).filter (fun i => decide (0 < w i) && decide (counts i < cap))

/-- The weight-positive indices, used when the per-person cap is relaxed
(`eligible = weights > 0`). -/
def positiveIndices (n : ℕ) (w : ℕ → ℚ) : List ℕ :=
  (List.range n).filter (fun i => decide (0 < w i))

/-- One draw of the inner shift loop: compute the eligible set, relax the
cap if it is empty, stop (`break`) if still empty, otherwise increment
the selected worker.  The weighted draw
`rng.choice(np.where(eligible)[0], p=probs)` is modelled by the oracle
value `rv` selecting a position of the eligible list, so quantifying over
the oracle covers every outcome the draw can produce. -/
def allocStep (n : ℕ) (w : ℕ → ℚ) (cap : ℕ) (rv : ℕ) (counts : ℕ → ℕ) :
    Option (ℕ → ℕ) :=
  let elig := eligibleIndices n w cap counts
  let elig2 := if elig.isEmpty then positiveIndices n w else elig
  if elig2.isEmpty then none
  else
    let chosen := elig2.getD (rv % elig2.length) 0
    some (Function.update counts chosen (counts chosen + 1))

/-- The per-month shift loop (`for _shift in range(total_shifts)`), with
`q` shifts left to allocate and `step` the index of the next draw within
the month. -/
def allocMonth (n : ℕ) (w : ℕ → ℚ) (cap : ℕ) (r : ℕ → ℕ) :
    ℕ → ℕ → (ℕ → ℕ) → (ℕ → ℕ)
  | 0, _, counts => counts
  | q + 1, step, counts =>
    match allocStep n w cap (r step) counts with
    | none => counts
    | some c2 => allocMonth n w cap r q (step + 1) c2

/-- The shift counts of one simulated month, starting from the all-zero
count vector (`counts = np.zeros(n_staff)`). -/
def monthCounts (n : ℕ) (w : ℕ → ℚ) (cap quota : ℕ) (r : ℕ → ℕ) : ℕ → ℕ :=
  allocMonth n w cap r quota 0 (fun _ => 0)

/-- The weight vector built by `simulate_sundays_per_month_distribution`
from the already-clamped counts: the first `oc` indices weight 0, the
next `kc` indices `keen_weight`, the remaining staff `normal_weight`. -/
def buildWeights (n oc kc : ℕ) (keen_weight normal_weight : ℚ) (i : ℕ) : ℚ :=
  if i < oc then 0
  else if i < oc + kc then keen_weight
  else if i < n then normal_weight
  else 0

/-- The representative index selected by the source's `person_type`
fallback chain (opt-out falls back to average when no one opts out, keen
falls back to average when no one is keen, average prefers the first
normal worker, then the first keen one, then index 0). -/
def resolveTarget (n oc kc : ℕ) (pt : PersonType) : ℕ :=
  let averageIndex := if 0 < n - oc - kc then oc + kc
    else if 0 < kc then oc else 0
  match pt with
  | .optOut => if oc = 0 then averageIndex else 0
  | .keen => if kc = 0 then averageIndex else oc
  | .average => averageIndex

/-- Embeds `simulate_sundays_per_month_distribution` from `src/app.py`.
The seeded generator becomes the oracle `R sim month step`; each trial
simulates 12 months and reports the mean of the representative worker's
monthly counts. -/
def simulate_sundays_per_month_distribution
    (n_staff staff_required_per_sunday opt_out_count keen_count : ℕ)
    (keen_weight normal_weight : ℚ) (n_sims : ℕ) (pt : PersonType)
    (R : ℕ → ℕ → ℕ → ℕ) : List ℚ :=
  let quota := total_shifts staff_required_per_sunday
  let oc := min opt_out_count n_staff
  let kc := min keen_count (n_staff - oc)
  let target_index := resolveTarget n_staff oc kc pt
  let weights := buildWeights n_staff oc kc keen_weight normal_weight
  let cap_per_person := min quota 4
  (List.range n_sims).map (fun sim =>
    (((List.range 12).map (fun m =>
      ((monthCounts n_staff weights cap_per_person quota (R sim m)
        target_index : ℕ) : ℚ))).sum) / 12)

/-! ## Simulator step lemmas -/

lemma mem_eligibleIndices {n : ℕ} {w : ℕ → ℚ} {cap : ℕ} {counts : ℕ → ℕ}
    {i : ℕ} (h : i ∈ eligibleIndices n w cap counts) :
    i < n ∧ 0 < w i ∧ counts i < cap := by
  have h' := List.mem_filter.mp h
  have hp := h'.2
  simp only [Bool.and_eq_true, decide_eq_true_eq] at hp
  exact ⟨List.mem_range.mp h'.1, hp.1, hp.2⟩

lemma mem_positiveIndices {n : ℕ} {w : ℕ → ℚ} {i : ℕ}
    (h : i ∈ positiveIndices n w) : i < n ∧ 0 < w i := by
  have h' := List.mem_filter.mp h
  have hp := h'.2
  simp only [decide_eq_true_eq] at hp
  exact ⟨List.mem_range.mp h'.1, hp⟩

/-- A successful draw increments exactly one index, which has positive
weight and lies below `n`. -/
lemma allocStep_some_spec {n : ℕ} {w : ℕ → ℚ} {cap rv : ℕ}
    {counts c2 : ℕ → ℕ} (h : allocStep n w cap rv counts = some c2) :
    ∃ chosen, chosen < n ∧ 0 < w chosen ∧
      c2 = Function.update counts chosen (counts chosen + 1) := by
  unfold allocStep at h
  dsimp only at h
  set elig2 := if (eligibleIndices n w cap counts).isEmpty
    then positiveIndices n w else eligibleIndices n w cap counts with he2
  by_cases hemp : elig2.isEmpty
  · rw [if_pos hemp] at h
    exact absurd h (by simp)
  · rw [if_neg hemp] at h
    have hlen : 0 < elig2.length := by
      rcases hl : elig2 with _ | ⟨a, l⟩
      · rw [hl] at hemp
        simp at hemp
      · simp
    have hmem : elig2.getD (rv % elig2.length) 0 ∈ elig2 := by
      rw [List.getD_eq_getElem elig2 0 (Nat.mod_lt _ hlen)]
      exact List.getElem_mem _
    have hc2 : c2 = Function.update counts (elig2.getD (rv % elig2.length) 0)
        (counts (elig2.getD (rv % elig2.length) 0) + 1) :=
      (Option.some.inj h).symm
    have hprops : ∀ x ∈ elig2, x < n ∧ 0 < w x := by
      intro x hx
      rw [he2] at hx
      by_cases hE : (eligibleIndices n w cap counts).isEmpty
      · rw [if_pos hE] at hx
        exact mem_positiveIndices hx
      · rw [if_neg hE] at hx
        obtain ⟨h1, h2, _⟩ := mem_eligibleIndices hx
        exact ⟨h1, h2⟩
    obtain ⟨h1, h2⟩ := hprops _ hmem
    exact ⟨_, h1, h2, hc2⟩

/-- If some index is eligible the draw cannot stop. -/
lemma allocStep_ne_none_of_mem {n : ℕ} {w : ℕ → ℚ} {cap rv : ℕ}
    {counts : ℕ → ℕ} {j : ℕ} (hj : j ∈ eligibleIndices n w cap counts) :
    allocStep n w cap rv counts ≠ none := by
  unfold allocStep
  dsimp only
  have hne : ¬ (eligibleIndices n w cap counts).isEmpty := by
    intro hE
    rw [List.isEmpty_iff] at hE
    rw [hE] at hj
    exact List.not_mem_nil j hj
  rw [if_neg hne, if_neg hne]
  simp

/-- Counts never decrease over a month. -/
lemma allocMonth_ge (n : ℕ) (w : ℕ → ℚ) (cap : ℕ) (r : ℕ → ℕ) :
    ∀ (q step : ℕ) (counts : ℕ → ℕ) (i : ℕ),
      counts i ≤ allocMonth n w cap r q step counts i := by
  intro q
  induction q with
  | zero =>
    intro step counts i
    exact le_rfl
  | succ q ih =>
    intro step counts i
    cases hstep : allocStep n w cap (r step) counts with
    | none =>
      simp only [allocMonth, hstep]
      exact le_rfl
    | some c2 =>
      simp only [allocMonth, hstep]
      refine le_trans ?_ (ih (step + 1) c2 i)
      obtain ⟨chosen, _, _, hc2⟩ := allocStep_some_spec hstep
      rw [hc2]
      by_cases hi : i = chosen
      · subst hi
        rw [Function.update_same]
        exact Nat.le_succ _
      · rw [Function.update_noteq hi]

/-- An index with non-positive weight is never selected, so its count is
unchanged by the whole month. -/
lemma allocMonth_apply_of_nonpos (n : ℕ) (w : ℕ → ℚ) (cap : ℕ) (r : ℕ → ℕ)
    {i : ℕ} (hwi : ¬ 0 < w i) :
    ∀ (q step : ℕ) (counts : ℕ → ℕ),
      allocMonth n w cap r q step counts i = counts i := by
  intro q
  induction q with
  | zero =>
    intro step counts
    rfl
  | succ q ih =>
    intro step counts
    cases hstep : allocStep n w cap (r step) counts with
    | none =>
      simp only [allocMonth, hstep]
    | some c2 =>
      simp only [allocMonth, hstep]
      rw [ih (step + 1) c2]
      obtain ⟨chosen, _, hwc, hc2⟩ := allocStep_some_spec hstep
      have hic : i ≠ chosen := by
        intro hic
        exact hwi (hic ▸ hwc)
      rw [hc2, Function.update_noteq hic]

/-- Conservation: while someone has positive weight and the final counts
stay below the cap, every one of the `q` draws allocates exactly one
shift. -/
lemma allocMonth_sum (n : ℕ) (w : ℕ → ℚ) (cap : ℕ) (r : ℕ → ℕ)
    (hpos : ∃ i, i < n ∧ 0 < w i) :
    ∀ (q step : ℕ) (counts : ℕ → ℕ),
      (∀ i, i < n → allocMonth n w cap r q step counts i < cap) →
      ∑ i in Finset.range n, allocMonth n w cap r q step counts i
        = (∑ i in Finset.range n, counts i) + q := by
  intro q
  induction q with
  | zero =>
    intro step counts _
    simp [allocMonth]
  | succ q ih =>
    intro step counts hcap
    obtain ⟨j, hj, hwj⟩ := hpos
    have hjlt : counts j < cap :=
      lt_of_le_of_lt (allocMonth_ge n w cap r (q + 1) step counts j) (hcap j hj)
    have hjel : j ∈ eligibleIndices n w cap counts := by
      unfold eligibleIndices
      rw [List.mem_filter]
      refine ⟨List.mem_range.mpr hj, ?_⟩
      simp [hwj, hjlt]
    cases hstep : allocStep n w cap (r step) counts with
    | none =>
      exact absurd hstep (allocStep_ne_none_of_mem hjel)
    | some c2 =>
      obtain ⟨chosen, hcn, _, hc2⟩ := allocStep_some_spec hstep
      have heq : ∀ i, allocMonth n w cap r (q + 1) step counts i
          = allocMonth n w cap r q (step + 1) c2 i := by
        intro i
        simp only [allocMonth, hstep]
      have hmem : chosen ∈ Finset.range n := Finset.mem_range.mpr hcn
      have hsum2 : ∑ i in Finset.range n, c2 i
          = (∑ i in Finset.range n, counts i) + 1 := by
        rw [hc2, Finset.sum_update_of_mem hmem, Finset.sdiff_singleton_eq_erase,
          ← Finset.add_sum_erase _ counts hmem]
        omega
      have hcap2 : ∀ i, i < n → allocMonth n w cap r q (step + 1) c2 i < cap := by
        intro i hi
        rw [← heq i]
        exact hcap i hi
      calc ∑ i in Finset.range n, allocMonth n w cap r (q + 1) step counts i
          = ∑ i in Finset.range n, allocMonth n w cap r q (step + 1) c2 i :=
            Finset.sum_congr rfl (fun i _ => heq i)
        _ = (∑ i in Finset.range n, c2 i) + q := ih (step + 1) c2 hcap2
        _ = (∑ i in Finset.range n, counts i) + (q + 1) := by
            rw [hsum2]
            omega

/-- With no positive weight anywhere, a draw stops immediately. -/
lemma allocStep_eq_none (n : ℕ) (w : ℕ → ℚ) (cap rv : ℕ) (counts : ℕ → ℕ)
    (h : ∀ i, i < n → ¬ 0 < w i) : allocStep n w cap rv counts = none := by
  have hE : eligibleIndices n w cap counts = [] := by
    unfold eligibleIndices
    rw [List.filter_eq_nil_iff]
    intro a ha
    simp only [Bool.and_eq_true, decide_eq_true_eq, not_and]
    intro hw
    exact absurd hw (h a (List.mem_range.mp ha))
  have hP : positiveIndices n w = [] := by
    unfold positiveIndices
    rw [List.filter_eq_nil_iff]
    intro a ha
    simp only [decide_eq_true_eq]
    exact h a (List.mem_range.mp ha)
  unfold allocStep
  dsimp only
  rw [hE, hP]
  simp

/-- With no positive weight the month allocates nothing at all. -/
lemma monthCounts_eq_zero_of_all_nonpos (n : ℕ) (w : ℕ → ℚ) (cap quota : ℕ)
    (r : ℕ → ℕ) (h : ∀ i, i < n → ¬ 0 < w i) (j : ℕ) :
    monthCounts n w cap quota r j = 0 := by
  unfold monthCounts
  cases quota with
  | zero => rfl
  | succ q =>
    simp only [allocMonth, allocStep_eq_none n w cap (r 0) (fun _ => 0) h]

lemma buildWeights_opt_out {n oc kc : ℕ} {kw nw : ℚ} {i : ℕ} (h : i < oc) :
    buildWeights n oc kc kw nw i = 0 := by
  unfold buildWeights
  rw [if_pos h]

lemma buildWeights_all_opt_out (n : ℕ) (kw nw : ℚ) (i : ℕ) :
    buildWeights n n 0 kw nw i = 0 := by
  unfold buildWeights
  by_cases h : i < n
  · rw [if_pos h]
  · rw [if_neg h, if_neg (by omega : ¬ i < n + 0), if_neg h]

/-- If the representative index carries no positive weight, every trial
outcome of the simulation is zero. -/
lemma simulate_outcome_zero (n_staff sr oc kc : ℕ) (kw nw : ℚ) (n_sims : ℕ)
    (pt : PersonType) (R : ℕ → ℕ → ℕ → ℕ) (x : ℚ)
    (hwt : ¬ 0 < buildWeights n_staff (min oc n_staff)
      (min kc (n_staff - min oc n_staff)) kw nw
      (resolveTarget n_staff (min oc n_staff)
        (min kc (n_staff - min oc n_staff)) pt))
    (hx : x ∈ simulate_sundays_per_month_distribution n_staff sr oc kc kw nw
      n_sims pt R) :
    x = 0 := by
  simp only [simulate_sundays_per_month_distribution] at hx
  obtain ⟨sim, _, hxeq⟩ := List.mem_map.mp hx
  rw [← hxeq]
  have hsum : (List.map (fun m =>
      ((monthCounts n_staff
        (buildWeights n_staff (min oc n_staff)
          (min kc (n_staff - min oc n_staff)) kw nw)
        (min (total_shifts sr) 4) (total_shifts sr) (R sim m)
        (resolveTarget n_staff (min oc n_staff)
          (min kc (n_staff - min oc n_staff)) pt) : ℕ) : ℚ))
      (List.range 12)).sum = 0 := by
    apply List.sum_eq_zero
    intro y hy
    obtain ⟨m, _, hym⟩ := List.mem_map.mp hy
    rw [← hym]
    have hz : monthCounts n_staff
        (buildWeights n_staff (min oc n_staff)
          (min kc (n_staff - min oc n_staff)) kw nw)
        (min (total_shifts sr) 4) (total_shifts sr) (R sim m)
        (resolveTarget n_staff (min oc n_staff)
          (min kc (n_staff - min oc n_staff)) pt) = 0 := by
      unfold monthCounts
      exact allocMonth_apply_of_nonpos _ _ _ _ hwt _ _ _
    rw [hz]
    exact Nat.cast_zero
  rw [hsum, zero_div]

/-! ## Claim C7 -/

/-- C7: the monthly quota is `round(staff_required * 52/12)`, and in any
month in which someone has positive weight and nobody's count reaches the
per-person cap, the total of all allocated shifts equals the quota
exactly, for every random outcome. -/
theorem C7_monthly_quota_conservation :
    (∀ sr : ℕ, total_shifts sr = (round ((sr : ℚ) * (52 / 12))).toNat) ∧
    (∀ (n : ℕ) (w : ℕ → ℚ) (cap quota : ℕ) (r : ℕ → ℕ),
      (∃ i, i < n ∧ 0 < w i) →
      (∀ i, i < n → monthCounts n w cap quota r i < cap) →
      ∑ i in Finset.range n, monthCounts n w cap quota r i = quota) := by
  constructor
  · intro sr
    rfl
  · intro n w cap quota r hpos hcap
    unfold monthCounts at hcap ⊢
    rw [allocMonth_sum n w cap r hpos quota 0 (fun _ => 0) hcap]
    simp

/-- Witness for C7: two workers of weight 1, cap 4, quota 3; all three
shifts land and the counts stay below the cap. -/
theorem C7_monthly_quota_conservation_witness :
    (∃ i, i < 2 ∧ 0 < (fun _ : ℕ => (1 : ℚ)) i) ∧
    (∀ i, i < 2 → monthCounts 2 (fun _ => (1 : ℚ)) 4 3 (fun _ => 0) i < 4) ∧
    ∑ i in Finset.range 2, monthCounts 2 (fun _ => (1 : ℚ)) 4 3 (fun _ => 0) i = 3 :=
  ⟨⟨0, by norm_num⟩, by decide,
    C7_monthly_quota_conservation.2 2 (fun _ => (1 : ℚ)) 4 3 (fun _ => 0)
      ⟨0, by norm_num⟩ (by decide)⟩

/-! ## Claim C8 -/

/-- C8: a worker among the first `opt_out_count` (clamped) indices has
weight 0 and is allocated 0 shifts in every month of every trial; and
with the representative person classified opt-out and a positive opt-out
count, every per-trial outcome of the simulation is 0. -/
theorem C8_opt_out_workers_zero :
    (∀ (n_staff oc_in kc_in : ℕ) (kw nw : ℚ) (cap quota : ℕ) (r : ℕ → ℕ)
        (i : ℕ), i < min oc_in n_staff →
      monthCounts n_staff
        (buildWeights n_staff (min oc_in n_staff)
          (min kc_in (n_staff - min oc_in n_staff)) kw nw) cap quota r i = 0) ∧
    (∀ (n_staff sr oc_in kc_in : ℕ) (kw nw : ℚ) (n_sims : ℕ)
        (R : ℕ → ℕ → ℕ → ℕ) (x : ℚ), 0 < oc_in →
      x ∈ simulate_sundays_per_month_distribution n_staff sr oc_in kc_in
        kw nw n_sims PersonType.optOut R →
      x = 0) := by
  constructor
  · intro n_staff oc_in kc_in kw nw cap quota r i hi
    have hw : ¬ 0 < buildWeights n_staff (min oc_in n_staff)
        (min kc_in (n_staff - min oc_in n_staff)) kw nw i := by
      rw [buildWeights_opt_out hi]
      exact lt_irrefl 0
    unfold monthCounts
    exact allocMonth_apply_of_nonpos _ _ _ _ hw _ _ _
  · intro n_staff sr oc_in kc_in kw nw n_sims R x hoc hx
    refine simulate_outcome_zero n_staff sr oc_in kc_in kw nw n_sims
      PersonType.optOut R x ?_ hx
    rcases Nat.eq_zero_or_pos n_staff with hn | hn
    · subst hn
      simp [buildWeights]
    · have hoc' : 0 < min oc_in n_staff := by omega
      have ht : resolveTarget n_staff (min oc_in n_staff)
          (min kc_in (n_staff - min oc_in n_staff)) PersonType.optOut = 0 := by
        unfold resolveTarget
        dsimp only
        rw [if_neg (by omega : ¬ min oc_in n_staff = 0)]
      rw [ht, buildWeights_opt_out hoc']
      exact lt_irrefl 0

/-- Concrete evaluation of the simulator for the C8 witness: one trial,
pool of 2, 1 opt-out, opt-out representative. -/
lemma c8_sim_eval :
    simulate_sundays_per_month_distribution 2 1 1 0 2 1 1 PersonType.optOut
      (fun _ _ _ => 0) = [0] := by
  have hwt : ¬ 0 < buildWeights 2 (min 1 2) (min 0 (2 - min 1 2)) 2 1
      (resolveTarget 2 (min 1 2) (min 0 (2 - min 1 2)) PersonType.optOut) := by
    decide
  have hall : ∀ x ∈ simulate_sundays_per_month_distribution 2 1 1 0 2 1 1
      PersonType.optOut (fun _ _ _ => 0), x = 0 :=
    fun x hx => simulate_outcome_zero 2 1 1 0 2 1 1 PersonType.optOut
      (fun _ _ _ => 0) x hwt hx
  have hlen : (simulate_sundays_per_month_distribution 2 1 1 0 2 1 1
      PersonType.optOut (fun _ _ _ => 0)).length = 1 := by
    simp [simulate_sundays_per_month_distribution]
  rw [show [(0 : ℚ)] = List.replicate 1 (0 : ℚ) from rfl]
  exact List.eq_replicate_iff.mpr ⟨hlen, hall⟩

/-- Witness for C8: pool of 2 with 1 opt-out; the opt-out worker gets 0
and the single trial's outcome is 0. -/
theorem C8_opt_out_workers_zero_witness :
    (0 < min 1 2 ∧
      monthCounts 2 (buildWeights 2 (min 1 2) (min 0 (2 - min 1 2)) 2 1)
        4 3 (fun _ => 0) 0 = 0) ∧
    ((0 : ℚ) ∈ simulate_sundays_per_month_distribution 2 1 1 0 2 1 1
      PersonType.optOut (fun _ _ _ => 0) ∧ (0 : ℚ) = 0) :=
  ⟨⟨by norm_num,
    C8_opt_out_workers_zero.1 2 1 0 2 1 4 3 (fun _ => 0) 0 (by norm_num)⟩,
   ⟨by
      rw [c8_sim_eval]
      exact List.mem_singleton.mpr rfl,
    C8_opt_out_workers_zero.2 2 1 1 0 2 1 1 (fun _ _ _ => 0) 0 (by norm_num)
      (by
        rw [c8_sim_eval]
        exact List.mem_singleton.mpr rfl)⟩⟩

/-! ## Claim C9 -/

/-- C9: when every weight is zero — in particular when the opt-out count
reaches the whole pool — the allocation loop stops early, no shifts are
assigned, no error occurs, and the simulation returns outcome 0 for
every trial. -/
theorem C9_all_weights_zero_degenerate :
    (∀ (n : ℕ) (w : ℕ → ℚ) (cap quota : ℕ) (r : ℕ → ℕ) (j : ℕ),
      (∀ i, i < n → ¬ 0 < w i) → monthCounts n w cap quota r j = 0) ∧
    (∀ (n_staff sr oc_in kc_in : ℕ) (kw nw : ℚ) (n_sims : ℕ)
        (pt : PersonType) (R : ℕ → ℕ → ℕ → ℕ), n_staff ≤ oc_in →
      simulate_sundays_per_month_distribution n_staff sr oc_in kc_in kw nw
        n_sims pt R = List.replicate n_sims 0) := by
  constructor
  · intro n w cap quota r j h
    exact monthCounts_eq_zero_of_all_nonpos n w cap quota r h j
  · intro n_staff sr oc_in kc_in kw nw n_sims pt R hle
    have hoc : min oc_in n_staff = n_staff := min_eq_right hle
    have hkc : min kc_in (n_staff - min oc_in n_staff) = 0 := by
      rw [hoc, Nat.sub_self, Nat.min_zero]
    rw [List.eq_replicate_iff]
    constructor
    · simp [simulate_sundays_per_month_distribution]
    · intro x hx
      refine simulate_outcome_zero n_staff sr oc_in kc_in kw nw n_sims
        pt R x ?_ hx
      rw [hkc, hoc, buildWeights_all_opt_out]
      exact lt_irrefl 0

/-- Witness for C9: pool of 2 with opt-out count 3; both trials yield 0. -/
theorem C9_all_weights_zero_degenerate_witness :
    ((∀ i, i < 2 → ¬ 0 < (fun _ : ℕ => (0 : ℚ)) i) ∧
      monthCounts 2 (fun _ => (0 : ℚ)) 4 3 (fun _ => 0) 0 = 0) ∧
    (2 ≤ 3 ∧
      simulate_sundays_per_month_distribution 2 5 3 1 2 1 2 PersonType.average
        (fun _ _ _ => 0) = List.replicate 2 0) :=
  ⟨⟨fun i _ => by norm_num,
    C9_all_weights_zero_degenerate.1 2 (fun _ => (0 : ℚ)) 4 3 (fun _ => 0) 0
      (fun i _ => by norm_num)⟩,
   ⟨by norm_num,
    C9_all_weights_zero_degenerate.2 2 5 3 1 2 1 2 PersonType.average
      (fun _ _ _ => 0) (by norm_num)⟩⟩

end RadiographyPay
